import Mathlib

/-!
Verification development for the delphixpy-examples orchestration scripts.

The repository's core is a multi-engine asynchronous operation orchestrator,
repeated near-identically in `js_container.py`, `v1_8_0/dx_jobs.py`,
`v1_8_0/dx_replication.py` and `v1_8_0/dx_environment.py`:

  * `run_job` resolves the target engine set from the `dxtools.conf`
    configuration (`--all`, `--engine <name>`, or the engine whose
    `default` flag is the string `'true'`), spawns one `main_workflow`
    thread per resolved target (via the `run_async` decorator) and joins
    all spawned threads;
  * `main_workflow` opens a session, performs the one requested operation,
    then polls `dx_session_obj.jobs` (a job tracker mapping an engine
    address to an outstanding job reference) until it drains, deleting
    entries whose fetched `job_state` is `CANCELED`, `COMPLETED` or
    `FAILED`, and sleeping `float(arguments['--poll'])` seconds
    (docopt default `10`) between checks;
  * `main` wraps `run_job` in exception handlers that decide the process
    exit code.

This file embeds those functions (and the `lib/GetReferences.py` lookup
helpers) as executable Lean definitions and proves the stated properties.
-/

namespace Delphix

/-- Job states, the closed set used by the scripts (`RUNNING`, `SUSPENDED`
and the terminal `CANCELED`, `COMPLETED`, `FAILED`). The scripts compare
the string `job_obj.job_state` against string literals; we model the
state space by this enumeration. -/
inductive JobState where
  | RUNNING
  | SUSPENDED
  | CANCELED
  | COMPLETED
  | FAILED
  deriving DecidableEq, Repr

/-- `job_obj.job_state in ["CANCELED", "COMPLETED", "FAILED"]`
(js_container.py line 443, dx_jobs.py line 195, dx_replication.py
line 250, dx_environment.py line 422). -/
def isTerminal : JobState → Bool
  | JobState.CANCELED => true
  | JobState.COMPLETED => true
  | JobState.FAILED => true
  | _ => false

/-- `elif job_obj.job_state in 'RUNNING'`: a Python substring test against
the literal `'RUNNING'`; on the closed state set only the state `RUNNING`
itself satisfies it (`"SUSPENDED" in "RUNNING"` is false). -/
def inRunningStr : JobState → Bool
  | JobState.RUNNING => true
  | _ => false

end Delphix

namespace GetReferences

/-- A Delphix SDK object as consumed by `lib/GetReferences.py`: the
fields `name`, `reference` and `active_branch` that
`find_obj_by_name` / `find_sourceconfig` read. -/
structure DxObj where
  name : String
  reference : String
  active_branch : String
  deriving DecidableEq, Repr

/-- The `DlpxException` message raised at the end of `find_obj_by_name`
(GetReferences.py lines 128-129). -/
def notFoundMsg (obj_name addr : String) : String :=
  obj_name ++ " was not found on engine " ++ addr ++ ".\n"

/-- Result of `find_obj_by_name`: either the matching object
(`active_branch=False` path) or the two-element
`[reference, active_branch]` list (`active_branch=True` path). -/
inductive FindResult where
  | obj (o : DxObj)
  | pair (l : List String)
  deriving DecidableEq, Repr

/-- `find_obj_by_name` (GetReferences.py lines 93-129), applied to the
list returned by a successful `f_class.get_all(engine)`.  The source
iterates `all_objs`; on the first object whose `name` equals `obj_name`
it returns the object (when `active_branch is False`) or the
`[reference, active_branch]` list (when `active_branch is True`); if no
object matches it raises `DlpxException`, modelled as `Except.error`. -/
def find_obj_by_name (all_objs : List DxObj) (obj_name : String)
    (active_branch : Bool) (addr : String) : Except String FindResult :=
  match all_objs with
  | [] => Except.error (notFoundMsg obj_name addr)
  | obj :: rest =>
      if obj.name = obj_name then
        if active_branch = false then Except.ok (FindResult.obj obj)
        else Except.ok (FindResult.pair [obj.reference, obj.active_branch])
      else find_obj_by_name rest obj_name active_branch addr

/-- The `DlpxException` message raised by `find_sourceconfig`
(GetReferences.py lines 247-248). -/
def noSourceconfigMsg (sourceconfig_name : String) : String :=
  "No sourceconfig match found for type " ++ sourceconfig_name ++ ".\n"

/-- `find_sourceconfig` (GetReferences.py lines 225-248), applied to the
list returned by `sourceconfig.get_all(engine, environment=...)`.  The
source's `for` loop has the `else: raise` attached to the `if` inside
the loop body, so only the first element is ever inspected: the first
element is returned when its name matches, otherwise `DlpxException` is
raised; an empty list falls through the loop and the function returns
`None` implicitly. -/
def find_sourceconfig (all_objs : List DxObj) (sourceconfig_name : String) :
    Except String (Option DxObj) :=
  match all_objs with
  | [] => Except.ok none
  | obj :: _ =>
      if obj.name = sourceconfig_name then Except.ok (some obj)
      else Except.error (noSourceconfigMsg sourceconfig_name)

end GetReferences


namespace Delphix

/-- One entry of the `dxtools.conf` engine configuration
(`dx_session_obj.dlpx_engines[name]`): the fields the orchestrator reads.
The `default` field is the string `'true'` / `'false'` flag tested by
`run_job`. -/
structure Engine where
  hostname : String
  ip_address : String
  username : String
  password : String
  default : String
  deriving DecidableEq, Repr

/-- `dx_session_obj.dlpx_engines`: the engine-name → engine mapping loaded
from `dxtools.conf`, with its (Python dict) iteration order made explicit
as a list. -/
abbrev Config := List (String × Engine)

/-- `dx_session_obj.dlpx_engines[name]` as a partial lookup
(`KeyError` ↦ `none`). -/
def dlpxLookup (cfg : Config) (name : String) : Option Engine :=
  (cfg.find? (fun p => p.1 == name)).map Prod.snd

/-- The engine-selection arguments consumed by `run_job`:
`arguments['--all']` (a docopt boolean) and `arguments['--engine']`
(`None` or a name). -/
structure EngineArgs where
  all : Bool
  engine : Option String
  deriving DecidableEq, Repr

/-- Ways `run_job` aborts before/instead of spawning the workers it would
otherwise spawn. -/
inductive RunJobErr where
  /-- `raise DlpxException('... cannot be found in ...')` for an unknown
  `--engine` name (dx_jobs.py lines 244-247, dx_replication.py
  lines 304-308). -/
  | unknownEngine
  /-- `raise DlpxException("... No default engine found. Exiting")`
  (js_container.py lines 517-518, dx_replication.py lines 321-322). -/
  | noDefaultEngine
  /-- `sys.exit(1)` (dx_environment.py lines 497-499). -/
  | exitOne
  /-- Python `NameError`: in dx_jobs.py `run_job` the local `engine` is
  never initialised, so reading it before assignment raises. -/
  | nameError
  deriving DecidableEq, Repr

/-- `run_job` of js_container.py (lines 464-527).  The returned list holds
the engines passed to the `main_workflow` threads that get started and
joined, in spawn order (`none` = the Python `None` that `engine` still
holds when `--engine` names an unknown engine: the `except` branch at
lines 499-503 only prints, and line 521 still appends a worker).
With `--all`, the loop at lines 481-484 spawns one worker per configured
engine (the `dx_session_obj[delphix_engine]` engine value is modelled
from the spec's configuration mapping, `lib/GetSession.py` not being part
of the sources); the spawn at line 521 is inside the `elif` branch, so it
does not run under `--all`.  With neither `--all` nor `--engine`, the
default-engine search (lines 507-515) has its `break` outside the `if`,
so only the first configured engine is ever examined; `engine` remaining
`None` raises `DlpxException` at line 518 before any worker starts. -/
def run_job_js (cfg : Config) (args : EngineArgs) :
    Except RunJobErr (List (Option Engine)) :=
  if args.all then
    Except.ok (cfg.map (fun p => some p.2))
  else
    match args.engine with
    | some name => Except.ok [dlpxLookup cfg name]
    | none =>
        match cfg.head? with
        | none => Except.error RunJobErr.noDefaultEngine
        | some p =>
            if p.2.default = "true" then Except.ok [some p.2]
            else Except.error RunJobErr.noDefaultEngine

/-- `run_job` of v1_8_0/dx_environment.py (lines 443-508).  Identical
shape to js_container's: unknown `--engine` only prints (lines 477-481)
and line 502 still spawns one worker with `engine = None`; the
default-engine search (lines 486-495) breaks after the first entry and a
miss reaches `sys.exit(1)` (lines 497-499). -/
def run_job_dx_environment (cfg : Config) (args : EngineArgs) :
    Except RunJobErr (List (Option Engine)) :=
  if args.all then
    Except.ok (cfg.map (fun p => some p.2))
  else
    match args.engine with
    | some name => Except.ok [dlpxLookup cfg name]
    | none =>
        match cfg.head? with
        | none => Except.error RunJobErr.exitOne
        | some p =>
            if p.2.default = "true" then Except.ok [some p.2]
            else Except.error RunJobErr.exitOne

/-- `run_job` of v1_8_0/dx_jobs.py (lines 212-274).  The
`threads.append(main_workflow(engine))` at line 268 sits OUTSIDE the
`elif arguments['--all'] is False:` branch, so under `--all` it runs a
second worker for the engine the loop assigned last (one extra thread on
top of the per-engine loop at lines 226-229); with an empty configuration
the uninitialised local `engine` raises `NameError` there.  An unknown
`--engine` raises `DlpxException` (lines 244-247).  The default-engine
search (lines 253-262) breaks after the first entry; on a miss the
`engine == None` test itself raises `NameError` because `engine` was
never assigned. -/
def run_job_dx_jobs (cfg : Config) (args : EngineArgs) :
    Except RunJobErr (List (Option Engine)) :=
  if args.all then
    match cfg.getLast? with
    | none => Except.error RunJobErr.nameError
    | some p => Except.ok (cfg.map (fun q => some q.2) ++ [some p.2])
  else
    match args.engine with
    | some name =>
        match dlpxLookup cfg name with
        | some e => Except.ok [some e]
        | none => Except.error RunJobErr.unknownEngine
    | none =>
        match cfg.head? with
        | none => Except.error RunJobErr.nameError
        | some p =>
            if p.2.default = "true" then Except.ok [some p.2]
            else Except.error RunJobErr.nameError

/-- `run_job` of v1_8_0/dx_replication.py (lines 271-331).  Same trailing
`threads.append(main_workflow(engine))` (line 325) outside the `elif` as
dx_jobs, but here `engine = None` is initialised (line 278), so `--all`
over an empty configuration spawns one worker with `None`, and over a
non-empty one spawns one worker per engine plus a duplicate of the
last-assigned engine.  Unknown `--engine` raises `DlpxException`
(lines 304-308); the default search (lines 312-319) breaks after the
first entry and raises when `engine` is still `None` (lines 321-322). -/
def run_job_dx_replication (cfg : Config) (args : EngineArgs) :
    Except RunJobErr (List (Option Engine)) :=
  if args.all then
    match cfg.getLast? with
    | none => Except.ok [none]
    | some p => Except.ok (cfg.map (fun q => some q.2) ++ [some p.2])
  else
    match args.engine with
    | some name =>
        match dlpxLookup cfg name with
        | some e => Except.ok [some e]
        | none => Except.error RunJobErr.unknownEngine
    | none =>
        match cfg.head? with
        | none => Except.error RunJobErr.noDefaultEngine
        | some p =>
            if p.2.default = "true" then Except.ok [some p.2]
            else Except.error RunJobErr.noDefaultEngine

/-- `dx_session_obj.jobs`: the job tracker, a mapping from a tracking key
(the owning engine's address, cf. dx_replication.py lines 110-112:
`dx_session_obj.jobs[dx_session_obj.server_session.address] =
dx_session_obj.server_session.last_job`) to the outstanding job
reference.  A Python dict cannot hold duplicate keys; iteration order is
the list order. -/
abbrev Jobs := List (String × String)

/-- The keys of the tracker. -/
def keysOf (jobs : Jobs) : List String := jobs.map Prod.fst

/-- `del dx_session_obj.jobs[j]` (js_container.py line 447, dx_jobs.py
line 198, dx_replication.py line 254, dx_environment.py line 425).
Dict keys are unique, so removing every entry with key `j` is exact. -/
def delKey (j : String) (jobs : Jobs) : Jobs :=
  jobs.filter (fun p => p.1 != j)

/-- docopt `--poll <n> ... [default: 10]`: the poll interval in seconds
used by `sleep(float(arguments['--poll']))` when `--poll` is not given. -/
def pollDefault : Nat := 10

/-- Everything one pass of the `for j in dx_session_obj.jobs.keys():`
inspection loop produces: the keys fetched (one `job.get` each, in
order), the sleeps performed (as a list of durations), the final
running-job counter `i`, and either the tracker as it stood when a fetch
raised (`Except.error`, the exception propagating to the loop's handler)
or the tracker after the pass (`Except.ok`). -/
structure PassResult where
  fetched : List String
  sleeps : List Nat
  running : Nat
  result : Except Jobs Jobs
  deriving Repr

/-- One pass of the inspection loop of js_container.py `main_workflow`
(lines 436-457), which dx_replication.py (lines 243-264) repeats
verbatim: iterate over a snapshot of the tracker keys (Python 2
`.keys()` returns a list); `job.get` each tracked reference (`fetch`,
returning `Except.error` when the call raises, e.g. `HttpError`); delete
the entry when its state is terminal, else count it when the state is in
`'RUNNING'`; then — still INSIDE the per-job loop — sleep for the poll
interval whenever the tracker is currently non-empty (lines 456-457).
A raising fetch aborts the pass with the tracker as it stands.  The
snapshot is passed as the entry list itself: keys are unique, so
`jobs[j]` is the ref stored alongside `j`. -/
def js_poll_pass (fetch : String → Except Unit JobState) (interval : Nat) :
    List (String × String) → Jobs → Nat → PassResult
  | [], jobs, i => ⟨[], [], i, Except.ok jobs⟩
  | (j, ref) :: rest, jobs, i =>
      match fetch ref with
      | Except.error _ => ⟨[j], [], i, Except.error jobs⟩
      | Except.ok st =>
          let jobs2 := if isTerminal st then delKey j jobs else jobs
          let i2 := if isTerminal st then i
                    else if inRunningStr st then i + 1 else i
          let sl : List Nat := if jobs2.length > 0 then [interval] else []
          let r := js_poll_pass fetch interval rest jobs2 i2
          ⟨j :: r.fetched, sl ++ r.sleeps, r.running, r.result⟩

/-- The tracker contents carried by either branch of a pass result. -/
def passJobs (r : PassResult) : Jobs :=
  match r.result with
  | Except.error jobs => jobs
  | Except.ok jobs => jobs

/-- One pass of the inspection loop of dx_jobs.py `main_workflow`
(lines 188-205): same deletion of terminal entries and running count,
but no sleep inside the loop (dx_environment.py lines 414-429 likewise,
with `else:` instead of `elif ... in 'RUNNING'` for the counter). -/
def dx_jobs_poll_pass (fetch : String → JobState) :
    List (String × String) → Jobs → Nat → Jobs × Nat
  | [], jobs, i => (jobs, i)
  | (j, ref) :: rest, jobs, i =>
      let st := fetch ref
      let jobs2 := if isTerminal st then delKey j jobs else jobs
      let i2 := if isTerminal st then i
                else if inRunningStr st then i + 1 else i
      dx_jobs_poll_pass fetch rest jobs2 i2

/-- One full polling cycle of dx_jobs.py `main_workflow`: the inspection
pass, then — AFTER the loop — `if len(dx_session_obj.jobs) > 0:
sleep(float(arguments['--poll']))` (lines 207-209; dx_environment.py
lines 433-435 are identical).  Returns the sleeps performed and the
remaining tracker. -/
def dx_jobs_poll_cycle (fetch : String → JobState) (interval : Nat)
    (jobs : Jobs) : List Nat × Jobs :=
  let r := dx_jobs_poll_pass fetch jobs jobs 0
  ((if r.1.length > 0 then [interval] else []), r.1)

/-- How a `main_workflow` worker thread ends. -/
inductive WorkerOutcome where
  /-- The `while` loop drained the tracker and the thread returned. -/
  | done
  /-- `sys.exit(code)` inside the worker thread: the `SystemExit` is
  caught by the thread bootstrap and terminates only this thread. -/
  | exited (code : Nat)
  /-- An exception no handler catches (e.g. `TypeError` from subscripting
  a `None` engine): the thread dies with a printed traceback. -/
  | crashed
  /-- Cycle budget exhausted (model artefact for the unbounded loop). -/
  | outOfFuel
  deriving DecidableEq, Repr

/-- The polling phase of js_container.py `main_workflow` (lines 411-461)
after the one-shot `thingstodo` item has been consumed: while the
tracker is non-empty run an inspection pass; a raising fetch is caught
by `except (DlpxException, RequestError, JobError, HttpError):` at
lines 459-461, which prints and calls `sys.exit(1)` — ending this
worker.  `oracle c ref` is what `job.get` yields for `ref` during cycle
`c`; `fuel` bounds the number of cycles considered.  Returns the
`(cycle, key)` log of fetches performed and the worker's outcome. -/
def js_worker_loop (oracle : Nat → String → Except Unit JobState)
    (interval : Nat) : Nat → Nat → Jobs → List (Nat × String) × WorkerOutcome
  | 0, _, _ => ([], WorkerOutcome.outOfFuel)
  | fuel + 1, c, jobs =>
      if jobs.length = 0 then ([], WorkerOutcome.done)
      else
        let r := js_poll_pass (oracle c) interval jobs jobs 0
        let tagged := r.fetched.map (fun k => (c, k))
        match r.result with
        | Except.error _ => (tagged, WorkerOutcome.exited 1)
        | Except.ok jobs2 =>
            let rest := js_worker_loop oracle interval fuel (c + 1) jobs2
            (tagged ++ rest.1, rest.2)

/-- Number of fetches of key `k` in a worker-loop log. -/
def countLog (k : String) (log : List (Nat × String)) : Nat :=
  (log.filter (fun p => p.2 == k)).length

/-- js_container.py `main_workflow` (lines 386-461) for one engine
argument, as the thread spawned by `run_job` runs it: a `None` engine
(possible per `run_job_js` when `--engine` named an unknown engine)
makes `engine['ip_address']` raise `TypeError`, uncaught in the thread
(`crashed`); a failing `serversess` is answered with `sys.exit(1)`
(lines 402-406); a failing operation dispatch likewise
(`create_container` etc., e.g. lines 132-135); otherwise the worker
polls the tracker left by the submission until it drains.
`submit` is the result of the SUBMITTING step: the tracker contents
after the operation (insertion under the session address as in
dx_replication.py lines 110-112), or an error when the engine rejected
the request. -/
def main_workflow_js (connect : Except Unit Unit) (submit : Except Unit Jobs)
    (oracle : Nat → String → Except Unit JobState) (interval fuel : Nat) :
    Option Engine → WorkerOutcome
  | none => WorkerOutcome.crashed
  | some _ =>
      match connect with
      | Except.error _ => WorkerOutcome.exited 1
      | Except.ok _ =>
          match submit with
          | Except.error _ => WorkerOutcome.exited 1
          | Except.ok jobs0 => (js_worker_loop oracle interval fuel 0 jobs0).2

/-- The process-level behaviour of js_container.py `main` (lines 530-608)
around `run_job`: a `DlpxException` escaping `run_job` (the only
exception `run_job_js` produces) is caught at lines 570-576 and the
process exits 2; when `run_job` returns, every spawned worker thread has
been joined, but their outcomes are never examined — a worker's
`sys.exit(1)` raises `SystemExit` inside its own thread only, where the
thread bootstrap swallows it — and `main` returns normally, exit code 0.
Returns the exit code together with the joined workers' outcomes. -/
def js_process (cfg : Config) (args : EngineArgs)
    (worker : Option Engine → WorkerOutcome) : Nat × List WorkerOutcome :=
  match run_job_js cfg args with
  | Except.error _ => (2, [])
  | Except.ok ws => (0, ws.map worker)

/-- The two-engine interleaving used for the sibling-isolation claim.
Both workers run over the single process-global `dx_session_obj`: one
shared job tracker (js_container.py has one global `dx_session_obj`,
line 545, and every `main_workflow` thread reads and mutates
`dx_session_obj.jobs`).  We evaluate the admissible schedule in which
both submissions complete before engine B's first inspection pass and
B's loop then runs: engine A's submission, when it succeeds, tracks its
job under A's address (dx_replication.py lines 110-112); when it fails,
the per-operation handler ends A's thread with `sys.exit(1)` and nothing
is tracked.  B's submission succeeds and tracks `JOB-B` under B's
address.  The function returns B's worker outcome; `aResult` carries the
`RemoteOperationError` detail A's handler printed. -/
def two_engine_run (aResult : Except String Unit)
    (oracleB : String → Except Unit JobState) (fuel : Nat) : WorkerOutcome :=
  let afterA : Jobs :=
    match aResult with
    | Except.ok _ => [("addrA", "JOB-A")]
    | Except.error _ => []
  let sharedB : Jobs := afterA ++ [("addrB", "JOB-B")]
  (js_worker_loop (fun _ => oracleB) pollDefault fuel 0 sharedB).2

/-- A concrete engine entry that is not marked default. -/
def engineA : Engine :=
  ⟨"hostA", "10.0.0.1", "delphix_admin", "pw", "false"⟩

/-- A concrete engine entry marked default (`default` flag `'true'`). -/
def engineB : Engine :=
  ⟨"hostB", "10.0.0.2", "delphix_admin", "pw", "true"⟩

/-- A two-engine configuration: `engA` first (not default), `engB` second
(default). -/
def cfgAB : Config := [("engA", engineA), ("engB", engineB)]

/-- A poll oracle for engine B's session: fetching B's own job reports it
`COMPLETED`; fetching any other job reference raises (a foreign job
handle is unknown to B's engine). -/
def oracleBSpec : String → Except Unit JobState :=
  fun ref => if ref = "JOB-B" then Except.ok JobState.COMPLETED
             else Except.error ()

end Delphix

namespace GetReferences

/-- C9 -- `find_obj_by_name` with `active_branch=False` returns the first
object of `f_class.get_all(engine)` whose name equals `obj_name`, and
raises `DlpxException` if and only if no object in the list has that
name. -/
theorem find_obj_by_name_first_match_or_error
    (all_objs : List DxObj) (obj_name addr : String) :
    (find_obj_by_name all_objs obj_name false addr =
      match all_objs.find? (fun o => o.name == obj_name) with
      | some o => Except.ok (FindResult.obj o)
      | none => Except.error (notFoundMsg obj_name addr)) ∧
    ((∃ msg, find_obj_by_name all_objs obj_name false addr =
        Except.error msg) ↔ ∀ o ∈ all_objs, o.name ≠ obj_name) := by
  constructor
  · induction all_objs with
    | nil => rfl
    | cons obj rest ih =>
        by_cases h : obj.name = obj_name
        · simp [find_obj_by_name, List.find?_cons, h]
        · simpa [find_obj_by_name, List.find?_cons, h] using ih
  · induction all_objs with
    | nil =>
        simp [find_obj_by_name]
    | cons obj rest ih =>
        by_cases h : obj.name = obj_name
        · simp [find_obj_by_name, h]
        · simpa [find_obj_by_name, h] using ih

/-- C10 -- `find_sourceconfig` returns the named sourceconfig only when it
is the first element of `sourceconfig.get_all`'s result; a non-empty
result whose first element has a different name raises `DlpxException`
even when a later element matches; an empty result returns `None`. -/
theorem find_sourceconfig_first_element_only (sourceconfig_name : String) :
    (find_sourceconfig [] sourceconfig_name = Except.ok none) ∧
    (∀ obj rest, obj.name = sourceconfig_name →
      find_sourceconfig (obj :: rest) sourceconfig_name =
        Except.ok (some obj)) ∧
    (∀ obj rest, obj.name ≠ sourceconfig_name →
      find_sourceconfig (obj :: rest) sourceconfig_name =
        Except.error (noSourceconfigMsg sourceconfig_name)) := by
  refine ⟨rfl, ?_, ?_⟩
  · intro obj rest h
    simp [find_sourceconfig, h]
  · intro obj rest h
    simp [find_sourceconfig, h]

/-- Witness for C9: on a concrete list with two objects named `b`, the
first one is returned. -/
theorem find_obj_by_name_first_match_or_error_witness :
    find_obj_by_name
        [⟨"a", "R1", "x"⟩, ⟨"b", "R2", "x"⟩, ⟨"b", "R3", "x"⟩] "b" false
        "engine.example" =
      Except.ok (FindResult.obj ⟨"b", "R2", "x"⟩) := by
  have h := (find_obj_by_name_first_match_or_error
      [⟨"a", "R1", "x"⟩, ⟨"b", "R2", "x"⟩, ⟨"b", "R3", "x"⟩] "b"
      "engine.example").1
  exact h.trans (by rfl)

/-- Witness for C10: with a two-element list whose second element is the
named sourceconfig, the function still raises; on the empty list it
returns `None`; on a matching first element it returns it. -/
theorem find_sourceconfig_first_element_only_witness :
    find_sourceconfig
        [⟨"orcl1", "SC-1", "b"⟩, ⟨"target", "SC-2", "b"⟩] "target" =
      Except.error (noSourceconfigMsg "target") ∧
    find_sourceconfig [] "target" = Except.ok none ∧
    find_sourceconfig [⟨"target", "SC-2", "b"⟩] "target" =
      Except.ok (some ⟨"target", "SC-2", "b"⟩) := by
  refine ⟨?_, (find_sourceconfig_first_element_only "target").1, ?_⟩
  · exact (find_sourceconfig_first_element_only "target").2.2
      ⟨"orcl1", "SC-1", "b"⟩ [⟨"target", "SC-2", "b"⟩] (by decide)
  · exact (find_sourceconfig_first_element_only "target").2.1
      ⟨"target", "SC-2", "b"⟩ [] rfl

end GetReferences

namespace Delphix

/-- C1 -- the code's process exit code is NOT nonzero when an engine
worker fails: here one engine is configured, its worker's submission
succeeds, and every subsequent `job.get` poll raises, so the worker hits
the handler at js_container.py lines 459-461 and calls `sys.exit(1)` —
inside its own thread, where the `SystemExit` is swallowed.  `main`
never inspects the joined threads' outcomes and the process exits 0,
against the claim (and against the evident intent of the `sys.exit(1)`
calls inside `main_workflow`). -/
theorem js_process_exit_zero_despite_worker_failure :
    js_process [("engB", engineB)] ⟨true, none⟩
        (main_workflow_js (Except.ok ()) (Except.ok [("addr1", "JOB-1")])
          (fun _ _ => Except.error ()) pollDefault 5) =
      (0, [WorkerOutcome.exited 1]) := rfl

/-- C2 (counterexample) -- with two configured engines and `--all`,
dx_jobs.py `run_job` starts three workers, the last configured engine
twice: the `threads.append(main_workflow(engine))` at line 268 sits
outside the `elif` and reuses the loop variable's final value.  This
refutes "exactly N engine workers — one per configured engine, none
duplicated" for the cited `run_job` instances. -/
theorem dx_jobs_all_duplicates_last_engine :
    cfgAB.length = 2 ∧
    run_job_dx_jobs cfgAB ⟨true, none⟩ =
      Except.ok [some engineA, some engineB, some engineB] :=
  ⟨rfl, rfl⟩

/-- C2 (amended) -- with `--all`, js_container's `run_job` starts exactly
one worker per configured engine (N workers, in configuration order) and
joins them all before returning, while dx_jobs and dx_replication start
those N plus one duplicate of the engine assigned last in the loop (N+1
workers), all joined before returning. -/
theorem run_job_all_worker_counts (cfg : Config) (p : String × Engine)
    (h : cfg.getLast? = some p) :
    run_job_js cfg ⟨true, none⟩ = Except.ok (cfg.map (fun q => some q.2)) ∧
    (cfg.map (fun q => some q.2)).length = cfg.length ∧
    run_job_dx_jobs cfg ⟨true, none⟩ =
      Except.ok (cfg.map (fun q => some q.2) ++ [some p.2]) ∧
    run_job_dx_replication cfg ⟨true, none⟩ =
      Except.ok (cfg.map (fun q => some q.2) ++ [some p.2]) := by
  refine ⟨rfl, by simp, ?_, ?_⟩
  · simp [run_job_dx_jobs, h]
  · simp [run_job_dx_replication, h]

/-- Witness for the amended C2 at the concrete two-engine configuration:
dx_jobs spawns `engineB` twice. -/
theorem run_job_all_worker_counts_witness :
    run_job_dx_jobs cfgAB ⟨true, none⟩ =
      Except.ok (cfgAB.map (fun q => some q.2) ++ [some engineB]) :=
  (run_job_all_worker_counts cfgAB ("engB", engineB) rfl).2.2.1

/-- C4 (counterexample) -- in js_container.py, `--engine missing-name`
does NOT fail immediately: the `except` at lines 499-503 only prints,
`engine` stays `None`, and line 521 still launches one worker thread
(with `None`), refuting "zero workers are started". -/
theorem js_unknown_engine_starts_worker_cex :
    dlpxLookup cfgAB "missing-name" = none ∧
    run_job_js cfgAB ⟨false, some "missing-name"⟩ = Except.ok [none] :=
  ⟨rfl, rfl⟩

/-- C4 (amended) -- for a `--engine` name absent from the configuration:
dx_jobs and dx_replication raise the unknown-engine `DlpxException`
before any worker starts (zero workers), while js_container and
dx_environment only print the error and still launch exactly one worker
with a `None` engine (which then dies inside its own thread). -/
theorem unknown_engine_behaviour (cfg : Config) (name : String)
    (h : dlpxLookup cfg name = none) :
    run_job_dx_jobs cfg ⟨false, some name⟩ =
      Except.error RunJobErr.unknownEngine ∧
    run_job_dx_replication cfg ⟨false, some name⟩ =
      Except.error RunJobErr.unknownEngine ∧
    run_job_js cfg ⟨false, some name⟩ = Except.ok [none] ∧
    run_job_dx_environment cfg ⟨false, some name⟩ = Except.ok [none] := by
  refine ⟨?_, ?_, ?_, ?_⟩ <;>
    simp [run_job_dx_jobs, run_job_dx_replication, run_job_js,
      run_job_dx_environment, h]

/-- Witness for the amended C4 at the concrete configuration and the name
`missing-name`. -/
theorem unknown_engine_behaviour_witness :
    run_job_dx_jobs cfgAB ⟨false, some "missing-name"⟩ =
      Except.error RunJobErr.unknownEngine ∧
    run_job_js cfgAB ⟨false, some "missing-name"⟩ = Except.ok [none] :=
  ⟨(unknown_engine_behaviour cfgAB "missing-name" rfl).1,
   (unknown_engine_behaviour cfgAB "missing-name" rfl).2.2.1⟩

/-- C5 (counterexample) -- `cfgAB` contains an engine marked default
(`engineB`, in second position), yet with neither `--all` nor `--engine`
both js_container and dx_replication fail with the no-default-engine
error: the default-search loop `break`s after examining only the first
configured engine, so a default in any later position is never found.
This refutes "that engine is selected wherever it appears in the
configuration". -/
theorem default_engine_second_position_cex :
    engineB.default = "true" ∧ ("engB", engineB) ∈ cfgAB ∧
    run_job_js cfgAB ⟨false, none⟩ = Except.error RunJobErr.noDefaultEngine ∧
    run_job_dx_replication cfgAB ⟨false, none⟩ =
      Except.error RunJobErr.noDefaultEngine :=
  ⟨rfl, by decide, rfl, rfl⟩

/-- C5 (amended) -- with neither `--all` nor `--engine`, the engine marked
default is selected only when it is the FIRST engine in the
configuration's iteration order; otherwise — first engine not marked
default (even if a later engine is), or empty configuration — the run
fails with the no-default-engine `DlpxException` before any worker
starts.  Both js_container and dx_replication behave this way. -/
theorem default_engine_first_position_only (cfg : Config) :
    (cfg = [] →
      run_job_js cfg ⟨false, none⟩ = Except.error RunJobErr.noDefaultEngine) ∧
    (∀ p, cfg.head? = some p → p.2.default = "true" →
      run_job_js cfg ⟨false, none⟩ = Except.ok [some p.2] ∧
      run_job_dx_replication cfg ⟨false, none⟩ = Except.ok [some p.2]) ∧
    (∀ p, cfg.head? = some p → p.2.default ≠ "true" →
      run_job_js cfg ⟨false, none⟩ =
        Except.error RunJobErr.noDefaultEngine ∧
      run_job_dx_replication cfg ⟨false, none⟩ =
        Except.error RunJobErr.noDefaultEngine) := by
  refine ⟨?_, ?_, ?_⟩
  · intro h; subst h; rfl
  · intro p h hd
    constructor <;> simp [run_job_js, run_job_dx_replication, h, hd]
  · intro p h hd
    constructor <;> simp [run_job_js, run_job_dx_replication, h, hd]

/-- Witness for the amended C5: a default engine in first position is
selected; in `cfgAB` (default second) the run errors. -/
theorem default_engine_first_position_only_witness :
    run_job_js [("engB", engineB)] ⟨false, none⟩ =
      Except.ok [some engineB] ∧
    run_job_js cfgAB ⟨false, none⟩ =
      Except.error RunJobErr.noDefaultEngine :=
  ⟨((default_engine_first_position_only [("engB", engineB)]).2.1
      ("engB", engineB) rfl rfl).1,
   ((default_engine_first_position_only cfgAB).2.2
      ("engA", engineA) rfl (by decide)).1⟩

end Delphix

namespace Delphix

/-- C7 (counterexample) -- two runs over the shared `dx_session_obj` that
differ only in whether engine A's submission fails produce different
outcomes for engine B: when A's submission fails, B polls only its own
job, sees it `COMPLETED` and finishes (`done`); when A's submission
succeeds, A's job handle sits in the process-global tracker, B's pass
also fetches `JOB-A` on B's session, the fetch raises, and B's worker
exits 1.  A's error is indeed confined to A's thread, but the shared
tracker couples the siblings' outcomes. -/
theorem submission_failure_changes_sibling_outcome_cex :
    two_engine_run (Except.error "RemoteOperationError") oracleBSpec 5 =
      WorkerOutcome.done ∧
    two_engine_run (Except.ok ()) oracleBSpec 5 = WorkerOutcome.exited 1 :=
  ⟨rfl, rfl⟩

/-- C7 (amended) -- a submission error on engine A is caught at A's worker
boundary and its details never reach engine B: B's outcome is identical
for any two error values A's handler may print, and after A's failure B
runs exactly the poll loop over its own single tracker entry.  (What the
original claim missed is only that A's submission SUCCESS also leaves a
trace — its tracker entry — in the process-global `dx_session_obj.jobs`
that B's loop polls, per the counterexample.) -/
theorem submission_error_details_confined (e1 e2 : String)
    (oracleB : String → Except Unit JobState) (fuel : Nat) :
    two_engine_run (Except.error e1) oracleB fuel =
      two_engine_run (Except.error e2) oracleB fuel ∧
    two_engine_run (Except.error e1) oracleB fuel =
      (js_worker_loop (fun _ => oracleB) pollDefault fuel 0
        [("addrB", "JOB-B")]).2 :=
  ⟨rfl, rfl⟩

/-- C8 (counterexample) -- in js_container.py the
`if len(dx_session_obj.jobs) > 0: sleep(...)` sits INSIDE the per-job
inspection loop (lines 456-457): with two tracked jobs both still
`RUNNING`, one polling cycle performs two sleeps of the poll interval,
not exactly one, even though the tracker is non-empty after the pass. -/
theorem js_sleeps_twice_in_one_cycle_cex :
    (js_poll_pass (fun _ => Except.ok JobState.RUNNING) pollDefault
        [("addrA", "JOB-A"), ("addrB", "JOB-B")]
        [("addrA", "JOB-A"), ("addrB", "JOB-B")] 0).sleeps = [10, 10] ∧
    (js_poll_pass (fun _ => Except.ok JobState.RUNNING) pollDefault
        [("addrA", "JOB-A"), ("addrB", "JOB-B")]
        [("addrA", "JOB-A"), ("addrB", "JOB-B")] 0).result =
      Except.ok [("addrA", "JOB-A"), ("addrB", "JOB-B")] :=
  ⟨rfl, rfl⟩

/-- C8 (amended) -- dx_jobs (and dx_environment, whose lines 433-435 are
identical) sleep exactly once per polling cycle, for the configured
interval (docopt default 10 seconds), exactly when the tracker is still
non-empty after the pass; js_container and dx_replication instead have
the sleep inside the per-job loop, sleeping after each inspected job
while the tracker is currently non-empty — which coincides with "exactly
once per cycle" only when a single job is tracked (third conjunct). -/
theorem sleep_once_per_cycle_dx_jobs_vs_js
    (fetch : String → JobState) (interval : Nat) (jobs : Jobs)
    (j ref : String) :
    ((dx_jobs_poll_cycle fetch interval jobs).2 ≠ [] →
      (dx_jobs_poll_cycle fetch interval jobs).1 = [interval]) ∧
    ((dx_jobs_poll_cycle fetch interval jobs).2 = [] →
      (dx_jobs_poll_cycle fetch interval jobs).1 = []) ∧
    ((js_poll_pass (fun r => Except.ok (fetch r)) interval [(j, ref)]
        [(j, ref)] 0).sleeps =
      if isTerminal (fetch ref) then [] else [interval]) := by
  refine ⟨?_, ?_, ?_⟩
  · intro h
    simp only [dx_jobs_poll_cycle] at h ⊢
    rcases hr : (dx_jobs_poll_pass fetch jobs jobs 0).1 with _ | ⟨a, l⟩
    · exact absurd hr h
    · simp
  · intro h
    simp only [dx_jobs_poll_cycle] at h ⊢
    rw [h]; simp
  · cases ht : isTerminal (fetch ref) <;>
      simp [js_poll_pass, delKey, ht, bne_self_eq_false]

/-- Witness for the amended C8: with one tracked `RUNNING` job, dx_jobs
sleeps exactly once for the default 10 seconds, and js_container also
sleeps exactly once in the single-job case. -/
theorem sleep_once_per_cycle_dx_jobs_vs_js_witness :
    (dx_jobs_poll_cycle (fun _ => JobState.RUNNING) pollDefault
        [("engA", "JOB-1")]).1 = [pollDefault] ∧
    (js_poll_pass (fun _ => Except.ok JobState.RUNNING) pollDefault
        [("engA", "JOB-1")] [("engA", "JOB-1")] 0).sleeps =
      if isTerminal ((fun _ => JobState.RUNNING) "JOB-1") then []
      else [pollDefault] :=
  ⟨(sleep_once_per_cycle_dx_jobs_vs_js (fun _ => JobState.RUNNING)
      pollDefault [("engA", "JOB-1")] "engA" "JOB-1").1 (by decide),
   (sleep_once_per_cycle_dx_jobs_vs_js (fun _ => JobState.RUNNING)
      pollDefault [("engA", "JOB-1")] "engA" "JOB-1").2.2⟩

end Delphix

namespace Delphix

/-- Unfolding: a raising fetch at the head of the snapshot aborts the pass
with the tracker as it stands. -/
theorem js_poll_pass_cons_error_result (fetch : String → Except Unit JobState)
    (interval : Nat) (j ref : String) (rest : List (String × String))
    (jobs : Jobs) (i : Nat) (e : Unit) (h : fetch ref = Except.error e) :
    (js_poll_pass fetch interval ((j, ref) :: rest) jobs i).result =
      Except.error jobs := by
  simp [js_poll_pass, h]

/-- Unfolding: a raising fetch at the head of the snapshot logs exactly
that one fetch. -/
theorem js_poll_pass_cons_error_fetched (fetch : String → Except Unit JobState)
    (interval : Nat) (j ref : String) (rest : List (String × String))
    (jobs : Jobs) (i : Nat) (e : Unit) (h : fetch ref = Except.error e) :
    (js_poll_pass fetch interval ((j, ref) :: rest) jobs i).fetched = [j] := by
  simp [js_poll_pass, h]

/-- Unfolding: a successful fetch at the head passes the (possibly
shrunk) tracker on to the rest of the snapshot; the overall result is
the recursive one. -/
theorem js_poll_pass_cons_ok_result (fetch : String → Except Unit JobState)
    (interval : Nat) (j ref : String) (rest : List (String × String))
    (jobs : Jobs) (i : Nat) (st : JobState) (h : fetch ref = Except.ok st) :
    (js_poll_pass fetch interval ((j, ref) :: rest) jobs i).result =
      (js_poll_pass fetch interval rest
        (if isTerminal st then delKey j jobs else jobs)
        (if isTerminal st then i
         else if inRunningStr st then i + 1 else i)).result := by
  simp [js_poll_pass, h]

/-- Unfolding: with a successful fetch at the head, the fetch log is the
head key followed by the recursive log. -/
theorem js_poll_pass_cons_ok_fetched (fetch : String → Except Unit JobState)
    (interval : Nat) (j ref : String) (rest : List (String × String))
    (jobs : Jobs) (i : Nat) (st : JobState) (h : fetch ref = Except.ok st) :
    (js_poll_pass fetch interval ((j, ref) :: rest) jobs i).fetched =
      j :: (js_poll_pass fetch interval rest
        (if isTerminal st then delKey j jobs else jobs)
        (if isTerminal st then i
         else if inRunningStr st then i + 1 else i)).fetched := by
  simp [js_poll_pass, h]

/-- `passJobs` through a result equation. -/
theorem passJobs_of_ok (r : PassResult) (js : Jobs)
    (h : r.result = Except.ok js) : passJobs r = js := by
  simp [passJobs, h]

/-- `passJobs` through a result equation (error side). -/
theorem passJobs_of_error (r : PassResult) (js : Jobs)
    (h : r.result = Except.error js) : passJobs r = js := by
  simp [passJobs, h]

/-- Two pass results with the same `result` carry the same tracker. -/
theorem passJobs_eq_of_result_eq (r1 r2 : PassResult)
    (h : r1.result = r2.result) : passJobs r1 = passJobs r2 := by
  unfold passJobs
  rw [h]

/-- `del jobs[j]` can only shrink the key set. -/
theorem mem_keysOf_delKey (j k : String) (jobs : Jobs)
    (h : k ∈ keysOf (delKey j jobs)) : k ∈ keysOf jobs := by
  simp only [keysOf, delKey, List.mem_map] at h ⊢
  obtain ⟨p, hp, hk⟩ := h
  exact ⟨p, (List.mem_filter.mp hp).1, hk⟩

/-- After `del jobs[k]`, the key `k` is gone. -/
theorem not_mem_keysOf_delKey_self (k : String) (jobs : Jobs) :
    k ∉ keysOf (delKey k jobs) := by
  simp only [keysOf, delKey, List.mem_map]
  rintro ⟨p, hp, hk⟩
  have hb := (List.mem_filter.mp hp).2
  rw [bne_iff_ne] at hb
  exact hb hk

/-- The inspection pass never adds a key: a key absent from the tracker
before the pass is absent afterwards, whichever way the pass ends. -/
theorem passJobs_keys_subset (fetch : String → Except Unit JobState)
    (interval : Nat) (k : String) :
    ∀ (snap : List (String × String)) (jobs : Jobs) (i : Nat),
      k ∉ keysOf jobs →
      k ∉ keysOf (passJobs (js_poll_pass fetch interval snap jobs i)) := by
  intro snap
  induction snap with
  | nil =>
      intro jobs i h
      simpa [js_poll_pass, passJobs] using h
  | cons hd tl ih =>
      intro jobs i h
      obtain ⟨j, ref⟩ := hd
      cases hf0 : fetch ref with
      | error e =>
          rw [passJobs_of_error _ jobs
            (js_poll_pass_cons_error_result fetch interval j ref tl jobs i e hf0)]
          exact h
      | ok st =>
          have h2 : k ∉ keysOf (if isTerminal st then delKey j jobs else jobs) := by
            cases isTerminal st with
            | false => simpa using h
            | true =>
                simp only [if_pos]
                intro hk
                exact h (mem_keysOf_delKey j k jobs hk)
          rw [passJobs_eq_of_result_eq _
            (js_poll_pass fetch interval tl
              (if isTerminal st then delKey j jobs else jobs)
              (if isTerminal st then i
               else if inRunningStr st then i + 1 else i))
            (js_poll_pass_cons_ok_result fetch interval j ref tl jobs i st hf0)]
          exact ih _ _ h2

/-- Every key the pass fetches is a key of the snapshot it walks. -/
theorem fetched_mem_snap (fetch : String → Except Unit JobState)
    (interval : Nat) (k : String) :
    ∀ (snap : List (String × String)) (jobs : Jobs) (i : Nat),
      k ∈ (js_poll_pass fetch interval snap jobs i).fetched →
      k ∈ keysOf snap := by
  intro snap
  induction snap with
  | nil =>
      intro jobs i h
      simp [js_poll_pass] at h
  | cons hd tl ih =>
      intro jobs i h
      obtain ⟨j, ref⟩ := hd
      cases hf0 : fetch ref with
      | error e =>
          rw [js_poll_pass_cons_error_fetched fetch interval j ref tl jobs i e hf0]
            at h
          simp only [List.mem_singleton] at h
          simp [keysOf, h]
      | ok st =>
          rw [js_poll_pass_cons_ok_fetched fetch interval j ref tl jobs i st hf0]
            at h
          rcases List.mem_cons.mp h with he | ht
          · simp [keysOf, he]
          · have := ih _ _ ht
            simp only [keysOf, List.map_cons]
            exact List.mem_cons_of_mem _ this

/-- With a fetch that never raises, the pass always completes. -/
theorem pass_result_ok_of_total (f : String → JobState) (interval : Nat) :
    ∀ (snap : List (String × String)) (jobs : Jobs) (i : Nat),
      ∃ js, (js_poll_pass (fun r => Except.ok (f r)) interval snap jobs i).result
        = Except.ok js := by
  intro snap
  induction snap with
  | nil => intro jobs i; exact ⟨jobs, rfl⟩
  | cons hd tl ih =>
      intro jobs i
      obtain ⟨j, ref⟩ := hd
      obtain ⟨js, hjs⟩ := ih (if isTerminal (f ref) then delKey j jobs else jobs)
        (if isTerminal (f ref) then i
         else if inRunningStr (f ref) then i + 1 else i)
      exact ⟨js, (js_poll_pass_cons_ok_result (fun r => Except.ok (f r)) interval
        j ref tl jobs i (f ref) rfl).trans hjs⟩

/-- A snapshot entry whose fetch reports a terminal state has its key
removed by the pass (and, keys never growing, it stays removed for the
remainder of the pass). -/
theorem terminal_fetch_removed (fetch : String → Except Unit JobState)
    (interval : Nat) (k ref : String) (st : JobState)
    (hf : fetch ref = Except.ok st) (ht : isTerminal st = true) :
    ∀ (snap : List (String × String)) (jobs : Jobs) (i : Nat) (js : Jobs),
      (k, ref) ∈ snap →
      (js_poll_pass fetch interval snap jobs i).result = Except.ok js →
      k ∉ keysOf js := by
  intro snap
  induction snap with
  | nil =>
      intro jobs i js hmem _
      exact absurd hmem (List.not_mem_nil _)
  | cons hd tl ih =>
      intro jobs i js hmem hres
      obtain ⟨j, r0⟩ := hd
      cases hf0 : fetch r0 with
      | error e =>
          rw [js_poll_pass_cons_error_result fetch interval j r0 tl jobs i e hf0]
            at hres
          exact absurd hres (by intro hcon; cases hcon)
      | ok st0 =>
          rw [js_poll_pass_cons_ok_result fetch interval j r0 tl jobs i st0 hf0]
            at hres
          rcases List.mem_cons.mp hmem with he | hm
          · injection he with h1 h2
            subst h1
            subst h2
            rw [hf] at hf0
            injection hf0 with h3
            subst h3
            rw [ht] at hres
            simp only [if_pos] at hres
            have hstart : k ∉ keysOf (delKey k jobs) :=
              not_mem_keysOf_delKey_self k jobs
            have hsub := passJobs_keys_subset fetch interval k tl
              (delKey k jobs) i hstart
            rwa [passJobs_of_ok _ js hres] at hsub
          · exact ih _ _ js hm hres

/-- Unfolding: with a non-empty tracker and a pass whose fetch raised,
the worker loop stops with `sys.exit(1)`, having logged only this
cycle's fetches. -/
theorem js_worker_loop_succ_error
    (oracle : Nat → String → Except Unit JobState) (interval fuel c : Nat)
    (jobs js : Jobs) (hlen : ¬ jobs.length = 0)
    (hres : (js_poll_pass (oracle c) interval jobs jobs 0).result =
      Except.error js) :
    js_worker_loop oracle interval (fuel + 1) c jobs =
      ((js_poll_pass (oracle c) interval jobs jobs 0).fetched.map
        (fun x => (c, x)), WorkerOutcome.exited 1) := by
  simp [js_worker_loop, hlen, hres]

/-- Unfolding: with a non-empty tracker and a completed pass, the worker
loop logs this cycle's fetches and continues on the shrunk tracker. -/
theorem js_worker_loop_succ_ok
    (oracle : Nat → String → Except Unit JobState) (interval fuel c : Nat)
    (jobs js : Jobs) (hlen : ¬ jobs.length = 0)
    (hres : (js_poll_pass (oracle c) interval jobs jobs 0).result =
      Except.ok js) :
    js_worker_loop oracle interval (fuel + 1) c jobs =
      ((js_poll_pass (oracle c) interval jobs jobs 0).fetched.map
          (fun x => (c, x)) ++
        (js_worker_loop oracle interval fuel (c + 1) js).1,
       (js_worker_loop oracle interval fuel (c + 1) js).2) := by
  simp [js_worker_loop, hlen, hres]

/-- A key no longer in the tracker is never fetched again by the
remaining polling cycles: its poll call count stays zero. -/
theorem absent_key_not_logged (oracle : Nat → String → Except Unit JobState)
    (interval : Nat) (k : String) :
    ∀ (fuel c : Nat) (jobs : Jobs), k ∉ keysOf jobs →
      countLog k (js_worker_loop oracle interval fuel c jobs).1 = 0 := by
  intro fuel
  induction fuel with
  | zero => intro c jobs _; rfl
  | succ n ih =>
      intro c jobs h
      by_cases hlen : jobs.length = 0
      · simp [js_worker_loop, hlen, countLog]
      · have hfetched : ∀ x ∈ (js_poll_pass (oracle c) interval jobs jobs 0).fetched,
            ¬ x = k := by
          intro x hx he
          subst he
          exact h (fetched_mem_snap (oracle c) interval x jobs jobs 0 hx)
        have htag : countLog k
            ((js_poll_pass (oracle c) interval jobs jobs 0).fetched.map
              (fun x => (c, x))) = 0 := by
          simp only [countLog, List.length_eq_zero, List.filter_eq_nil_iff]
          intro p hp
          simp only [List.mem_map] at hp
          obtain ⟨x, hx, hpx⟩ := hp
          subst hpx
          intro hbeq
          exact hfetched x hx (eq_of_beq hbeq)
        rcases hres : (js_poll_pass (oracle c) interval jobs jobs 0).result
            with js | js
        · rw [js_worker_loop_succ_error oracle interval n c jobs js hlen hres]
          exact htag
        · have hnext : k ∉ keysOf js := by
            have hsub := passJobs_keys_subset (oracle c) interval k jobs jobs 0 h
            rwa [passJobs_of_ok _ js hres] at hsub
          rw [js_worker_loop_succ_ok oracle interval n c jobs js hlen hres]
          simp only [countLog, List.filter_append, List.length_append] at htag ⊢
          rw [htag]
          simpa [countLog] using ih (c + 1) js hnext

end Delphix

namespace Delphix

/-- If some snapshot entry's fetch raises, the pass aborts with an
error. -/
theorem pass_error_of_mem_error (fetch : String → Except Unit JobState)
    (interval : Nat) (k ref : String) (hf : fetch ref = Except.error ()) :
    ∀ (snap : List (String × String)) (jobs : Jobs) (i : Nat),
      (k, ref) ∈ snap →
      ∃ js, (js_poll_pass fetch interval snap jobs i).result =
        Except.error js := by
  intro snap
  induction snap with
  | nil =>
      intro jobs i h
      exact absurd h (List.not_mem_nil _)
  | cons hd tl ih =>
      intro jobs i hmem
      obtain ⟨j, r0⟩ := hd
      cases hf0 : fetch r0 with
      | error e =>
          exact ⟨jobs,
            js_poll_pass_cons_error_result fetch interval j r0 tl jobs i e hf0⟩
      | ok st0 =>
          rcases List.mem_cons.mp hmem with he | hm
          · injection he with h1 h2
            subst h1
            subst h2
            rw [hf] at hf0
            cases hf0
          · obtain ⟨js, hjs⟩ := ih
              (if isTerminal st0 then delKey j jobs else jobs)
              (if isTerminal st0 then i
               else if inRunningStr st0 then i + 1 else i) hm
            exact ⟨js, (js_poll_pass_cons_ok_result fetch interval j r0 tl jobs
              i st0 hf0).trans hjs⟩

/-- A tracker entry whose fetch raises is never deleted by the pass:
deletion happens only after a successful fetch of a terminal state for
that key, and (keys being unique) the only reference stored under the
key is the raising one. -/
theorem entry_kept (fetch : String → Except Unit JobState) (interval : Nat)
    (k ref : String) (hf : fetch ref = Except.error ()) :
    ∀ (snap : List (String × String)) (jobs : Jobs) (i : Nat),
      (∀ r2, (k, r2) ∈ snap → r2 = ref) →
      (k, ref) ∈ jobs →
      (k, ref) ∈ passJobs (js_poll_pass fetch interval snap jobs i) := by
  intro snap
  induction snap with
  | nil =>
      intro jobs i _ hj
      simpa [js_poll_pass, passJobs] using hj
  | cons hd tl ih =>
      intro jobs i huniq hj
      obtain ⟨j, r0⟩ := hd
      cases hf0 : fetch r0 with
      | error e =>
          rw [passJobs_of_error _ jobs
            (js_poll_pass_cons_error_result fetch interval j r0 tl jobs i e hf0)]
          exact hj
      | ok st0 =>
          have hj2 : (k, ref) ∈ (if isTerminal st0 then delKey j jobs else jobs) := by
            cases hterm : isTerminal st0 with
            | false => simpa using hj
            | true =>
                simp only [if_pos]
                by_cases hjk : j = k
                · subst hjk
                  have : r0 = ref := huniq r0 (List.mem_cons_self _ _)
                  subst this
                  rw [hf] at hf0
                  cases hf0
                · refine List.mem_filter.mpr ⟨hj, ?_⟩
                  simp only [bne_iff_ne, ne_eq]
                  intro hkj
                  exact hjk hkj.symm
          have huniq2 : ∀ r2, (k, r2) ∈ tl → r2 = ref := fun r2 h2 =>
            huniq r2 (List.mem_cons_of_mem _ h2)
          rw [passJobs_eq_of_result_eq _
            (js_poll_pass fetch interval tl
              (if isTerminal st0 then delKey j jobs else jobs)
              (if isTerminal st0 then i
               else if inRunningStr st0 then i + 1 else i))
            (js_poll_pass_cons_ok_result fetch interval j r0 tl jobs i st0 hf0)]
          exact ih _ _ huniq2 hj2

/-- In a tracker with unique keys (a Python dict), the reference stored
under a key is unique. -/
theorem nodup_key_unique :
    ∀ (jobs : Jobs), (keysOf jobs).Nodup →
      ∀ (k r1 r2 : String), (k, r1) ∈ jobs → (k, r2) ∈ jobs → r1 = r2 := by
  intro jobs
  induction jobs with
  | nil =>
      intro _ k r1 r2 h
      exact absurd h (List.not_mem_nil _)
  | cons hd tl ih =>
      intro hnd k r1 r2 h1 h2
      obtain ⟨j, r0⟩ := hd
      have hnd' : (j :: keysOf tl).Nodup := by simpa [keysOf] using hnd
      have hjnot : j ∉ keysOf tl := (List.nodup_cons.mp hnd').1
      have hndtl : (keysOf tl).Nodup := (List.nodup_cons.mp hnd').2
      rcases List.mem_cons.mp h1 with e1 | m1 <;>
        rcases List.mem_cons.mp h2 with e2 | m2
      · injection e1 with a1 b1
        injection e2 with a2 b2
        rw [b1, b2]
      · injection e1 with a1 b1
        subst a1
        exact absurd (List.mem_map_of_mem Prod.fst m2) hjnot
      · injection e2 with a2 b2
        subst a2
        exact absurd (List.mem_map_of_mem Prod.fst m1) hjnot
      · exact ih hndtl k r1 r2 m1 m2

end Delphix

namespace Delphix

/-- C3 (counterexample) -- a transport error during a status poll DOES
terminate the engine's worker loop, and the fetch is NOT retried on a
next poll cycle: with one tracked job whose every `job.get` raises, the
pass aborts with the entry still in the tracker, and the worker performs
exactly one fetch (cycle 0, key `engA`) before the handler at
js_container.py lines 459-461 ends the loop with `sys.exit(1)`. -/
theorem poll_error_terminates_worker_loop_cex :
    (js_poll_pass (fun _ => Except.error ()) pollDefault [("engA", "JOB-1")]
        [("engA", "JOB-1")] 0).result = Except.error [("engA", "JOB-1")] ∧
    js_worker_loop (fun _ _ => Except.error ()) pollDefault 5 0
        [("engA", "JOB-1")] = ([(0, "engA")], WorkerOutcome.exited 1) :=
  ⟨rfl, rfl⟩

/-- C3 (amended) -- a transport error while fetching a tracked job's
status does not remove the job's entry from the tracker, but — contrary
to the claim — it is not retried on a next poll cycle: the exception
propagates to the worker's per-engine handler, which terminates that
engine's worker loop (`sys.exit(1)`). -/
theorem poll_error_keeps_entry_and_terminates_loop
    (fetch : String → Except Unit JobState) (interval fuel c : Nat)
    (jobs : Jobs) (k ref : String) (hnd : (keysOf jobs).Nodup)
    (hmem : (k, ref) ∈ jobs) (herr : fetch ref = Except.error ()) :
    (∃ js, (js_poll_pass fetch interval jobs jobs 0).result =
        Except.error js ∧ (k, ref) ∈ js) ∧
    (js_worker_loop (fun _ => fetch) interval (fuel + 1) c jobs).2 =
      WorkerOutcome.exited 1 := by
  have huniq : ∀ r2, (k, r2) ∈ jobs → r2 = ref := fun r2 h2 =>
    nodup_key_unique jobs hnd k r2 ref h2 hmem
  obtain ⟨js, hjs⟩ :=
    pass_error_of_mem_error fetch interval k ref herr jobs jobs 0 hmem
  have hkeep : (k, ref) ∈ passJobs (js_poll_pass fetch interval jobs jobs 0) :=
    entry_kept fetch interval k ref herr jobs jobs 0 huniq hmem
  have hpj : passJobs (js_poll_pass fetch interval jobs jobs 0) = js :=
    passJobs_of_error _ js hjs
  have hlen : ¬ jobs.length = 0 := by
    intro h0
    rw [List.length_eq_zero] at h0
    subst h0
    exact absurd hmem (List.not_mem_nil _)
  refine ⟨⟨js, hjs, hpj ▸ hkeep⟩, ?_⟩
  rw [js_worker_loop_succ_error (fun _ => fetch) interval fuel c jobs js hlen hjs]

/-- Witness for the amended C3 at a concrete one-job tracker whose fetch
always raises. -/
theorem poll_error_keeps_entry_and_terminates_loop_witness :
    (∃ js, (js_poll_pass (fun _ => Except.error ()) 10 [("engA", "JOB-1")]
        [("engA", "JOB-1")] 0).result = Except.error js ∧
        ("engA", "JOB-1") ∈ js) ∧
    (js_worker_loop (fun _ => (fun _ => Except.error ())) 10 5 0
        [("engA", "JOB-1")]).2 = WorkerOutcome.exited 1 :=
  poll_error_keeps_entry_and_terminates_loop (fun _ => Except.error ()) 10 4 0
    [("engA", "JOB-1")] "engA" "JOB-1" (by decide) (by decide) rfl

/-- C6 -- in every poll cycle, a tracked job whose fetched state is
terminal (`CANCELED`, `COMPLETED` or `FAILED`) is removed from the
tracker during that same cycle, and once removed the key is never polled
again: its poll call count over all later cycles is zero.  `o c ref` is
the state `job.get` reports for `ref` during cycle `c`. -/
theorem terminal_retired_never_repolled
    (o : Nat → String → JobState) (interval fuel c : Nat) (jobs : Jobs)
    (k ref : String) (hmem : (k, ref) ∈ jobs)
    (hterm : isTerminal (o c ref) = true) :
    ∃ js, (js_poll_pass (fun r => Except.ok (o c r)) interval jobs jobs 0).result
        = Except.ok js ∧
      k ∉ keysOf js ∧
      countLog k (js_worker_loop (fun n r => Except.ok (o n r)) interval fuel
        (c + 1) js).1 = 0 := by
  obtain ⟨js, hjs⟩ := pass_result_ok_of_total (o c) interval jobs jobs 0
  have hrm : k ∉ keysOf js :=
    terminal_fetch_removed (fun r => Except.ok (o c r)) interval k ref (o c ref)
      rfl hterm jobs jobs 0 js hmem hjs
  exact ⟨js, hjs, hrm,
    absent_key_not_logged (fun n r => Except.ok (o n r)) interval k fuel
      (c + 1) js hrm⟩

/-- Witness for C6: one tracked job reported `COMPLETED` in cycle 0 is
retired in that cycle and never fetched in the following cycles. -/
theorem terminal_retired_never_repolled_witness :
    ∃ js, (js_poll_pass
        (fun r => Except.ok ((fun _ _ => JobState.COMPLETED) 0 r)) pollDefault
        [("engA", "JOB-1")] [("engA", "JOB-1")] 0).result = Except.ok js ∧
      "engA" ∉ keysOf js ∧
      countLog "engA" (js_worker_loop
        (fun n r => Except.ok ((fun _ _ => JobState.COMPLETED) n r))
        pollDefault 3 1 js).1 = 0 :=
  terminal_retired_never_repolled (fun _ _ => JobState.COMPLETED) pollDefault 3
    0 [("engA", "JOB-1")] "engA" "JOB-1" (by decide) rfl

end Delphix
